import Mathlib

/-!
Shallow embedding of "Enhanced Recurring Tasks for Notion"
(src/libs/taskProcessors.mjs, src/libs/helpers.mjs, src/index.mjs,
src/libs/config.mjs), together with theorems settling the frozen claims
about the natural-language specification.

Remote Notion calls are modelled by success oracles (`String → Bool`,
indexed by page id) plus an explicit trace of issued remote calls (`Ev`).
JavaScript `Promise.allSettled` per-task aggregation is modelled by the
`Settled` type; a rejection carries the `pageId` field of the rejection
reason (`none` when the thrown value is not an `errorPageId`, matching
`reason.pageId === undefined`).
-/

set_option autoImplicit false

namespace EnhancedRecurring

/-- JavaScript truthiness of an optional string field coming from the
Notion record extraction: `undefined` and `""` are falsy. -/
def jsTruthy : Option String → Bool
  | none => false
  | some s => decide (s ≠ "")

/-- JavaScript template-literal interpolation of a possibly-undefined
string value: `undefined` prints as the text "undefined". -/
def jsInterp : Option String → String
  | none => "undefined"
  | some s => s

/-- JavaScript `String.prototype.toLowerCase` restricted to the ASCII word
characters the recurring regex can capture. -/
def jsToLowerCase (s : String) : String :=
  String.mk (s.data.map Char.toLower)

/-- JavaScript `\w` character class: `[A-Za-z0-9_]`. -/
def isWordChar (c : Char) : Bool :=
  c.isAlphanum || decide (c = '_')

/-- The match of the regex `^(\d+) (\w+)` from `setDateRecurring`
(taskProcessors.mjs line 78): a maximal run of digits, a single literal
space, then a maximal nonempty run of word characters; the remainder of
the string is ignored.  Returns the two capture groups. -/
def recurringMatch (s : String) : Option (String × String) :=
  let cs := s.data
  let ds := cs.takeWhile Char.isDigit
  if ds.isEmpty then none
  else
    match cs.drop ds.length with
    | ' ' :: rest =>
        let ws := rest.takeWhile isWordChar
        if ws.isEmpty then none else some (String.mk ds, String.mk ws)
    | _ => none

/-- JavaScript `parseInt(digits, 10)` on a nonempty all-digit capture. -/
def natOfDigits (ds : List Char) : Nat :=
  ds.foldl (fun acc c => acc * 10 + (c.toNat - '0'.toNat)) 0

/-- The `unitMapping` object of `setDateRecurring` (taskProcessors.mjs
line 79): only the four singular unit words are keys; any other index
(including the plural forms) yields `undefined`. -/
def unitMapping (w : String) : Option String :=
  if w = "week" then some "weeks"
  else if w = "day" then some "days"
  else if w = "month" then some "months"
  else if w = "year" then some "years"
  else none

/-- The interval parse performed inline by `setDateRecurring`
(taskProcessors.mjs lines 86-94): regex match, then the lower-cased unit
capture is looked up in `unitMapping` and the result must be one of
`acceptableUnits` (which contains exactly the four values `unitMapping`
can produce, so the lookup succeeding is equivalent).  On success the
amount is `parseInt` of the first capture and the unit is the mapped
plural form. -/
def setDateRecurringParse (s : String) : Option (Nat × String) :=
  match recurringMatch s with
  | none => none
  | some (ds, w) =>
      match unitMapping (jsToLowerCase w) with
      | none => none
      | some u => some (natOfDigits ds.data, u)

/-! ### Calendar model (date-fns `parseISO`, `add`, `format`) -/

/-- Calendar date (proleptic Gregorian). -/
structure Ymd where
  y : Nat
  m : Nat
  d : Nat
deriving DecidableEq

def isLeapYear (y : Nat) : Bool :=
  (y % 4 = 0 && y % 100 ≠ 0) || y % 400 = 0

def daysInMonth (y m : Nat) : Nat :=
  if m = 2 then (if isLeapYear y then 29 else 28)
  else if m = 4 ∨ m = 6 ∨ m = 9 ∨ m = 11 then 30
  else 31

def digitVal (c : Char) : Nat := c.toNat - '0'.toNat

/-- Validate and build a date from the eight digit characters of
`yyyy-mm-dd`. -/
def mkYmd (c1 c2 c3 c4 c5 c6 c7 c8 : Char) : Option Ymd :=
  if c1.isDigit && c2.isDigit && c3.isDigit && c4.isDigit &&
     c5.isDigit && c6.isDigit && c7.isDigit && c8.isDigit then
    let y := ((digitVal c1 * 10 + digitVal c2) * 10 + digitVal c3) * 10 + digitVal c4
    let m := digitVal c5 * 10 + digitVal c6
    let d := digitVal c7 * 10 + digitVal c8
    if 1 ≤ m ∧ m ≤ 12 ∧ 1 ≤ d ∧ d ≤ daysInMonth y m then some ⟨y, m, d⟩ else none
  else none

/-- date-fns `parseISO` restricted to the calendar-date part: accepts
`yyyy-mm-dd`, optionally followed by a time part introduced by `T`
(whose effect on the formatted calendar date is not modelled); any other
shape is an Invalid Date, which makes `format` throw a `RangeError`. -/
def parseISOymd (s : String) : Option Ymd :=
  match s.data with
  | [c1, c2, c3, c4, '-', c5, c6, '-', c7, c8] => mkYmd c1 c2 c3 c4 c5 c6 c7 c8
  | c1 :: c2 :: c3 :: c4 :: '-' :: c5 :: c6 :: '-' :: c7 :: c8 :: 'T' :: _ =>
      mkYmd c1 c2 c3 c4 c5 c6 c7 c8
  | _ => none

/-- Days since the epoch 0000-03-01 (Howard Hinnant's civil-date
algorithm, restricted to `Nat`; valid for years ≥ 1, which covers every
date `mkYmd` validates that the program can meet). -/
def toDayNumber (x : Ymd) : Nat :=
  let y := if x.m ≤ 2 then x.y - 1 else x.y
  let era := y / 400
  let yoe := y % 400
  let mp := if x.m > 2 then x.m - 3 else x.m + 9
  let doy := (153 * mp + 2) / 5 + (x.d - 1)
  let doe := yoe * 365 + yoe / 4 - yoe / 100 + doy
  era * 146097 + doe

/-- Inverse of `toDayNumber` (civil-from-days). -/
def ofDayNumber (z : Nat) : Ymd :=
  let era := z / 146097
  let doe := z % 146097
  let yoe := (doe - doe / 1460 + doe / 36524 - doe / 146096) / 365
  let y := yoe + era * 400
  let doy := doe - (365 * yoe + yoe / 4 - yoe / 100)
  let mp := (5 * doy + 2) / 153
  let d := doy - (153 * mp + 2) / 5 + 1
  let m := if mp < 10 then mp + 3 else mp - 9
  if m ≤ 2 then ⟨y + 1, m, d⟩ else ⟨y, m, d⟩

/-- date-fns `addMonths`: month arithmetic with day-of-month clamped to
the length of the target month. -/
def addMonthsClamp (x : Ymd) (n : Nat) : Ymd :=
  let t := x.y * 12 + (x.m - 1) + n
  let y := t / 12
  let m := t % 12 + 1
  ⟨y, m, min x.d (daysInMonth y m)⟩

/-- date-fns `add(date, { [unit]: amount })` for the four units the
pipeline can produce. -/
def dateFnsAdd (x : Ymd) (amount : Nat) (unit : String) : Ymd :=
  if unit = "days" then ofDayNumber (toDayNumber x + amount)
  else if unit = "weeks" then ofDayNumber (toDayNumber x + 7 * amount)
  else if unit = "months" then addMonthsClamp x amount
  else if unit = "years" then addMonthsClamp x (12 * amount)
  else x

def padZero (n w : Nat) : String :=
  let s := toString n
  String.mk (List.replicate (w - s.length) '0') ++ s

/-- date-fns `format(date, "yyyy-MM-dd")`. -/
def formatYmd (x : Ymd) : String :=
  padZero x.y 4 ++ "-" ++ padZero x.m 2 ++ "-" ++ padZero x.d 2

/-- JavaScript `new Date(str)` for the strings built by
`handleRecurringTasks`: the template interpolation appends `T00:00`, so
only `yyyy-mm-ddT00:00` parses to a valid date (returned as the day
number of its midnight); everything else — in particular
`"undefinedT00:00"` — is an Invalid Date (`NaN` time value). -/
def jsDateParseT0 (s : String) : Option Nat :=
  match s.data with
  | [c1, c2, c3, c4, '-', c5, c6, '-', c7, c8, 'T', '0', '0', ':', '0', '0'] =>
      (mkYmd c1 c2 c3 c4 c5 c6 c7 c8).map toDayNumber
  | _ => none

/-- The due-date eligibility test of `handleRecurringTasks` (index.mjs
line 80): `new Date() >= new Date(`…T00:00`)`.  `now` is the current
instant at day granularity (the comparison against a midnight value only
depends on the day).  A comparison against an Invalid Date (`NaN`) is
false in JavaScript. -/
def dueCheck (now : Nat) (dateRecurring : Option String) : Bool :=
  match jsDateParseT0 (jsInterp dateRecurring ++ "T00:00") with
  | none => false
  | some v => decide (v ≤ now)

/-! ### Task records and `processTasks` -/

/-- The fields of a raw Notion page that `processTasks` reads.
`nameTitle` models `properties.Name.title[0]?.text.content`,
`recurringText` models `properties.Recurring.rich_text[0]?.text.content`,
`dateRecurring` models `properties['Date Recurring'].date?.start`, and
`dateCompleted` models `properties['Date Completed'].date` (`none` is a
null `date` object, on which reading `.start` throws a TypeError).
`properties` is the opaque property bag retained for cloning, with the
nested Notion value objects abstracted to strings. -/
structure RawTask where
  id : String
  nameTitle : Option String
  recurringText : Option String
  dateRecurring : Option String
  dateCompleted : Option String
  properties : List (String × String)
deriving DecidableEq

/-- The processed task shape produced by `processTasks`. -/
structure ProcTask where
  name : Option String
  page_id : String
  recurring : Option String
  date_recurring : Option String
  date_completed : String
  properties : List (String × String)
deriving DecidableEq

/-- The body of the `map` in `processTasks`: fails (TypeError) when
`['Date Completed'].date` is null. -/
def processTaskOne (r : RawTask) : Option ProcTask :=
  match r.dateCompleted with
  | none => none
  | some dc =>
      some { name := r.nameTitle, page_id := r.id, recurring := r.recurringText,
             date_recurring := r.dateRecurring, date_completed := dc,
             properties := r.properties }

/-- `processTasks` (taskProcessors.mjs lines 15-28): maps every record;
an exception thrown for any record is caught and rethrown by
`errorHandler`, so a single malformed record fails the whole call. -/
def processTasks (tasks : List RawTask) : Option (List ProcTask) :=
  tasks.mapM processTaskOne

/-! ### Settled outcomes and the remote-call trace -/

/-- Outcome of one entry of a `Promise.allSettled` aggregation.  A
rejection records `reason.pageId` (set only when the thrown value is an
`errorPageId`) and `reason.name`. -/
inductive Settled where
  | fulfilled : Settled
  | rejected (pageId : Option String) (name : String) : Settled
deriving DecidableEq

def isRejected : Settled → Bool
  | .fulfilled => false
  | .rejected _ _ => true

/-- The `pageId` carried by a rejection reason (`none` for a fulfilled
entry, which `excludeFailedResults` filters away before reading it). -/
def settledPageId : Settled → Option String
  | .fulfilled => none
  | .rejected p _ => p

/-- A remote Notion call issued by the pipeline. -/
inductive Ev where
  | updateStatus (pageId status : String)
  | updateDateRecurring (pageId date : String)
  | createPage (oldPageId : String) (props : List (String × String))
  | errorCard (pageId kind : String)
deriving DecidableEq

/-- The page id a remote call is about. -/
def evPage : Ev → String
  | .updateStatus p _ => p
  | .updateDateRecurring p _ => p
  | .createPage p _ => p
  | .errorCard p _ => p

/-- `excludeFailedResults` (taskProcessors.mjs lines 167-171): keep the
rejected entries and project out `reason.pageId`. -/
def excludeFailedResults (failedResults : List Settled) : List (Option String) :=
  (failedResults.filter isRejected).map settledPageId

/-! ### The three mutation stages -/

/-- The status expression of `archiveTasks` (taskProcessors.mjs
line 43). -/
def archiveStatus (recur : Bool) (t : ProcTask) : String :=
  if recur then
    (if jsTruthy t.recurring || jsTruthy t.date_recurring then "Recurring Archive" else "Archive")
  else "Archive"

/-- The body of the `map` in `archiveTasks` for one task: issue the
status update; on remote failure create an `ArchiveFailed` error card
and reject with an `errorPageId` carrying the task's page id. -/
def archiveOne (okA : String → Bool) (recur : Bool) (t : ProcTask) : Settled × List Ev :=
  let status := archiveStatus recur t
  if okA t.page_id then
    (.fulfilled, [.updateStatus t.page_id status])
  else
    (.rejected (some t.page_id) "ArchiveFailed",
      [.updateStatus t.page_id status, .errorCard t.page_id "ArchiveFailed"])

/-- The value `archiveTasks` returns: only aggregate counts. -/
structure ArchiveStats where
  archivedTasks : Nat
  failedToArchive : Nat
deriving DecidableEq

/-- `archiveTasks` (taskProcessors.mjs lines 38-68): filter out the
excluded page ids, settle each remaining task independently, and return
the counts of fulfilled and rejected entries (the per-task results list
is not returned). -/
def archiveTasks (okA : String → Bool) (tasks : List ProcTask) (recur : Bool)
    (excludeList : List (Option String)) : ArchiveStats × List Ev :=
  let tasksToArchive := tasks.filter (fun t => !(excludeList.contains (some t.page_id)))
  let results := tasksToArchive.map (archiveOne okA recur)
  ({ archivedTasks := (results.filter (fun r => !isRejected r.1)).length,
     failedToArchive := (results.filter (fun r => isRejected r.1)).length },
   (results.map Prod.snd).flatten)

/-- The body of the `map` in `setDateRecurring` for one task
(taskProcessors.mjs lines 83-105).  When `date_recurring` is already
truthy the task is reported fulfilled with no remote call; otherwise the
interval is parsed (a nullish `recurring` makes `.match` throw a raw
TypeError, whose reason has no `pageId`), an invalid interval creates an
`InvalidRecurring` error card and rejects with the page id, and a valid
interval leads to one `Date Recurring` update (an invalid completed date
makes `format` throw a RangeError; a remote update failure rejects with
the raw Notion error — neither carries a `pageId`). -/
def setDateRecurringOne (okU : String → Bool) (t : ProcTask) : Settled × List Ev :=
  if jsTruthy t.date_recurring then
    (.fulfilled, [])
  else
    match t.recurring with
    | none => (.rejected none "TypeError", [])
    | some spec =>
        match setDateRecurringParse spec with
        | none =>
            (.rejected (some t.page_id) "InvalidRecurring",
              [.errorCard t.page_id "InvalidRecurring"])
        | some (amount, unit) =>
            match parseISOymd t.date_completed with
            | none => (.rejected none "RangeError", [])
            | some completedDate =>
                let dateRecurring := formatYmd (dateFnsAdd completedDate amount unit)
                if okU t.page_id then
                  (.fulfilled, [.updateDateRecurring t.page_id dateRecurring])
                else
                  (.rejected none "NotionError",
                    [.updateDateRecurring t.page_id dateRecurring])

/-- `setDateRecurring` (taskProcessors.mjs lines 77-117): settle each
task independently and return the per-task results list. -/
def setDateRecurring (okU : String → Bool) (recurringTasks : List ProcTask) :
    List Settled × List Ev :=
  let results := recurringTasks.map (setDateRecurringOne okU)
  (results.map Prod.fst, (results.map Prod.snd).flatten)

/-- `config.propertiesToExclude` (config.mjs line 31). -/
def propertiesToExclude : List String := ["Date Created", "Date Completed", "Date Recurring"]

/-- `config.recurTaskStatus` (config.mjs line 24).  The nested Notion
status-value object is abstracted to its `name` string. -/
def recurTaskStatus : String := "New Recurring"

/-- JavaScript object-spread override of one key in a property bag. -/
def setKey (bag : List (String × String)) (k v : String) : List (String × String) :=
  if bag.any (fun p => decide (p.1 = k)) then
    bag.map (fun p => if p.1 = k then (k, v) else p)
  else bag ++ [(k, v)]

/-- The `newProperties` computation of `createRecurringTasks`
(taskProcessors.mjs lines 134-135): spread the old bag, set `Status` to
the configured new-recurring value, then delete the excluded keys. -/
def newProperties (props : List (String × String)) : List (String × String) :=
  (setKey props "Status" recurTaskStatus).filter
    (fun p => !(propertiesToExclude.contains p.1))

/-- The body of the `map` in `createRecurringTasks` for one task: issue
the clone creation; on failure create a `RecurCreationFail` error card
and reject with an `errorPageId` carrying the task's page id. -/
def createRecurringOne (okC : String → Bool) (t : ProcTask) : Settled × List Ev :=
  if okC t.page_id then
    (.fulfilled, [.createPage t.page_id (newProperties t.properties)])
  else
    (.rejected (some t.page_id) "RecurCreationFail",
      [.createPage t.page_id (newProperties t.properties),
       .errorCard t.page_id "RecurCreationFail"])

/-- `createRecurringTasks` (taskProcessors.mjs lines 127-159): settle
each task independently and return the per-task results list. -/
def createRecurringTasks (okC : String → Bool) (tasks : List ProcTask) :
    List Settled × List Ev :=
  let results := tasks.map (createRecurringOne okC)
  (results.map Prod.fst, (results.map Prod.snd).flatten)

/-! ### The two passes and the run summary (index.mjs, helpers.mjs) -/

structure DoneStats where
  totalCompletedTasks : Nat
  recurringTasksCompleted : Nat
  archivedTasks : Nat
  archiveFailures : Nat
  recurringParseFailures : Nat
deriving DecidableEq

/-- JavaScript `processTasks.length` as written at index.mjs line 40:
the `.length` of a function is its declared parameter count, and
`processTasks(tasks)` declares one parameter, so this expression is the
constant 1 (the adjacent array `processedTasks` is not what the source
reads). -/
def processTasksArity : Nat := 1

/-- `processDoneTasks` (index.mjs lines 13-52) applied to the list of
records returned by the done-tasks query. -/
def processDoneTasks (okU okA : String → Bool) (doneTasks : List RawTask) :
    Option (DoneStats × List Ev) :=
  if doneTasks.isEmpty then some (⟨0, 0, 0, 0, 0⟩, [])
  else
    match processTasks doneTasks with
    | none => none
    | some processedTasks =>
        let recurringTasks := processedTasks.filter
          (fun t => jsTruthy t.recurring || jsTruthy t.date_recurring)
        let recurringResults := setDateRecurring okU recurringTasks
        let excludeRejectedList := excludeFailedResults recurringResults.1
        let archived := archiveTasks okA processedTasks true excludeRejectedList
        some ({ totalCompletedTasks := processTasksArity,
                recurringTasksCompleted := recurringTasks.length,
                archivedTasks := archived.1.archivedTasks,
                archiveFailures := archived.1.failedToArchive,
                recurringParseFailures := excludeRejectedList.length },
              recurringResults.2 ++ archived.2)

structure RecurStats where
  recurredTasks : Nat
  recurCreationFailures : Nat
  archivedTasks : Nat
  archiveFailures : Nat
deriving DecidableEq

/-- `handleRecurringTasks` (index.mjs lines 62-103) applied to the list
of records returned by the recurring-archive query, with `now` the
current instant at day granularity. -/
def handleRecurringTasks (okC okA : String → Bool) (now : Nat)
    (recurringArchivedTasks : List RawTask) : Option (RecurStats × List Ev) :=
  if recurringArchivedTasks.isEmpty then some (⟨0, 0, 0, 0⟩, [])
  else
    match processTasks recurringArchivedTasks with
    | none => none
    | some processedArchivedTasks =>
        let tasksToRecur := processedArchivedTasks.filter
          (fun t => dueCheck now t.date_recurring)
        if tasksToRecur.isEmpty then some (⟨0, 0, 0, 0⟩, [])
        else
          let creation := createRecurringTasks okC tasksToRecur
          let excludeRejectedList := excludeFailedResults creation.1
          let archived := archiveTasks okA tasksToRecur false excludeRejectedList
          some ({ recurredTasks := tasksToRecur.length,
                  recurCreationFailures := excludeRejectedList.length,
                  archivedTasks := archived.1.archivedTasks,
                  archiveFailures := archived.1.failedToArchive },
                creation.2 ++ archived.2)

structure Summary where
  totalCompletedTasks : Nat
  recurringTasksProcessed : Nat
  recurringParseFailures : Nat
  archivedTasks : Nat
  archiveFailures : Nat
  recurredTasks : Nat
  recurCreationFailures : Nat
  message : String
deriving DecidableEq

/-- `createSummary` (helpers.mjs lines 38-49). -/
def createSummary (doneTasks : DoneStats) (tasksToRecur : RecurStats) : Summary :=
  { totalCompletedTasks := doneTasks.totalCompletedTasks,
    recurringTasksProcessed :=
      doneTasks.recurringTasksCompleted - doneTasks.recurringParseFailures,
    recurringParseFailures := doneTasks.recurringParseFailures,
    archivedTasks := doneTasks.archivedTasks + tasksToRecur.archivedTasks,
    archiveFailures := doneTasks.archiveFailures + tasksToRecur.archiveFailures,
    recurredTasks := tasksToRecur.recurredTasks,
    recurCreationFailures := tasksToRecur.recurCreationFailures,
    message :=
      (if doneTasks.totalCompletedTasks > 0 then "Archived and processed completed tasks."
       else "No completed tasks to archive.") ++
      (if tasksToRecur.recurredTasks > 0 then " Created and archived recurring tasks."
       else " No new recurring tasks created.") }

/-- The self-invoking entry point of index.mjs: run the two passes in
sequence and build the run summary. -/
def mainRun (okU okA1 okC okA2 : String → Bool) (now : Nat)
    (doneQuery recurQuery : List RawTask) : Option Summary :=
  match processDoneTasks okU okA1 doneQuery with
  | none => none
  | some d =>
      match handleRecurringTasks okC okA2 now recurQuery with
      | none => none
      | some r => some (createSummary d.1 r.1)

/-! ### `createErrorCard` over an explicit remote store (helpers.mjs) -/

/-- The deterministic error-card message of `createErrorCard`
(helpers.mjs lines 82-84); `none` for an unknown error type (for which
`name` stays `undefined` and the creation attempt fails harmlessly). -/
def errorCardName (taskId : String) (taskName : Option String) (errorType : String) :
    Option String :=
  if errorType = "InvalidRecurring" then
    some ("Recurring format is invalid for task " ++ taskId ++ " with name " ++
      jsInterp taskName ++ ".")
  else if errorType = "RecurCreationFail" then
    some ("Failed to create recurring task for task " ++ taskId ++ " with name " ++
      jsInterp taskName ++ ".")
  else if errorType = "ArchiveFailed" then
    some ("Failed to archive task " ++ taskId ++ " with name " ++ jsInterp taskName ++ ".")
  else none

/-- `createErrorCard` (helpers.mjs lines 78-108) acting on the remote
store, abstracted as the list of page titles in the tasks database: the
database is queried for a page whose `Name` equals the computed message
and the card page is created only when none exists. -/
def createErrorCard (taskId : String) (taskName : Option String) (errorType : String)
    (store : List String) : List String :=
  match errorCardName taskId taskName errorType with
  | none => store
  | some nm => if store.contains nm then store else store ++ [nm]

end EnhancedRecurring

namespace EnhancedRecurring

/-! ### Helper lemmas about the stage aggregations -/

theorem mem_flatten_of_stage {α : Type} (f : α → Settled × List Ev) (ts : List α) (t : α)
    (ht : t ∈ ts) {e : Ev} (he : e ∈ (f t).2) : e ∈ ((ts.map f).map Prod.snd).flatten :=
  List.mem_flatten.mpr ⟨(f t).2, List.mem_map.mpr ⟨f t, List.mem_map.mpr ⟨t, ht, rfl⟩, rfl⟩, he⟩

theorem stage_of_mem_flatten {α : Type} (f : α → Settled × List Ev) (ts : List α) {e : Ev}
    (he : e ∈ ((ts.map f).map Prod.snd).flatten) : ∃ t, t ∈ ts ∧ e ∈ (f t).2 := by
  rcases List.mem_flatten.mp he with ⟨l, hl, hel⟩
  rcases List.mem_map.mp hl with ⟨pr, hpr, rfl⟩
  rcases List.mem_map.mp hpr with ⟨t, ht, rfl⟩
  exact ⟨t, ht, hel⟩

theorem setDateRecurring_snd_eq (okU : String → Bool) (ts : List ProcTask) :
    (setDateRecurring okU ts).2 = ((ts.map (setDateRecurringOne okU)).map Prod.snd).flatten := rfl

theorem setDateRecurring_fst_eq (okU : String → Bool) (ts : List ProcTask) :
    (setDateRecurring okU ts).1 = (ts.map (setDateRecurringOne okU)).map Prod.fst := rfl

theorem createRecurringTasks_snd_eq (okC : String → Bool) (ts : List ProcTask) :
    (createRecurringTasks okC ts).2 = ((ts.map (createRecurringOne okC)).map Prod.snd).flatten := rfl

theorem createRecurringTasks_fst_eq (okC : String → Bool) (ts : List ProcTask) :
    (createRecurringTasks okC ts).1 = (ts.map (createRecurringOne okC)).map Prod.fst := rfl

theorem archiveTasks_snd_eq (okA : String → Bool) (tasks : List ProcTask) (recur : Bool)
    (excl : List (Option String)) :
    (archiveTasks okA tasks recur excl).2 =
      (((tasks.filter (fun t => !(excl.contains (some t.page_id)))).map
          (archiveOne okA recur)).map Prod.snd).flatten := rfl

theorem mem_excludeFailedResults (rs : List Settled) (p : Option String) (k : String)
    (h : Settled.rejected p k ∈ rs) : p ∈ excludeFailedResults rs :=
  List.mem_map.mpr ⟨.rejected p k, List.mem_filter.mpr ⟨h, rfl⟩, rfl⟩

theorem archiveOne_update_mem (okA : String → Bool) (recur : Bool) (t : ProcTask) :
    Ev.updateStatus t.page_id (archiveStatus recur t) ∈ (archiveOne okA recur t).2 := by
  unfold archiveOne
  cases okA t.page_id <;> simp

theorem archiveOne_events (okA : String → Bool) (recur : Bool) (t : ProcTask) {e : Ev}
    (he : e ∈ (archiveOne okA recur t).2) :
    e = Ev.updateStatus t.page_id (archiveStatus recur t) ∨
      e = Ev.errorCard t.page_id "ArchiveFailed" := by
  unfold archiveOne at he
  cases h : okA t.page_id <;> rw [h] at he <;> simp at he
  · exact he
  · exact Or.inl he

theorem archiveOne_evPage (okA : String → Bool) (recur : Bool) (t : ProcTask) {e : Ev}
    (he : e ∈ (archiveOne okA recur t).2) : evPage e = t.page_id := by
  rcases archiveOne_events okA recur t he with h | h <;> subst h <;> rfl

theorem archiveTasks_event_mem (okA : String → Bool) (tasks : List ProcTask) (recur : Bool)
    (excl : List (Option String)) {e : Ev} (he : e ∈ (archiveTasks okA tasks recur excl).2) :
    ∃ t, t ∈ tasks ∧ excl.contains (some t.page_id) = false ∧ e ∈ (archiveOne okA recur t).2 := by
  rw [archiveTasks_snd_eq] at he
  rcases stage_of_mem_flatten _ _ he with ⟨t, ht, het⟩
  rcases List.mem_filter.mp ht with ⟨ht', hpred⟩
  exact ⟨t, ht', by simpa using hpred, het⟩

theorem archiveTasks_event_of_mem (okA : String → Bool) (tasks : List ProcTask) (recur : Bool)
    (excl : List (Option String)) (t : ProcTask) (ht : t ∈ tasks)
    (hex : excl.contains (some t.page_id) = false) {e : Ev} (he : e ∈ (archiveOne okA recur t).2) :
    e ∈ (archiveTasks okA tasks recur excl).2 := by
  rw [archiveTasks_snd_eq]
  exact mem_flatten_of_stage _ _ t
    (List.mem_filter.mpr ⟨ht, by simp only [Bool.not_eq_true']; exact hex⟩) he

theorem createRecurringOne_events (okC : String → Bool) (t : ProcTask) {e : Ev}
    (he : e ∈ (createRecurringOne okC t).2) :
    e = Ev.createPage t.page_id (newProperties t.properties) ∨
      e = Ev.errorCard t.page_id "RecurCreationFail" := by
  unfold createRecurringOne at he
  cases h : okC t.page_id <;> rw [h] at he <;> simp at he
  · exact he
  · exact Or.inl he

theorem createRecurringOne_evPage (okC : String → Bool) (t : ProcTask) {e : Ev}
    (he : e ∈ (createRecurringOne okC t).2) : evPage e = t.page_id := by
  rcases createRecurringOne_events okC t he with h | h <;> subst h <;> rfl

theorem setDateRecurringOne_events (okU : String → Bool) (t : ProcTask) {e : Ev}
    (he : e ∈ (setDateRecurringOne okU t).2) :
    e = Ev.errorCard t.page_id "InvalidRecurring" ∨
      ∃ d, e = Ev.updateDateRecurring t.page_id d := by
  unfold setDateRecurringOne at he
  split at he
  · simp at he
  · split at he
    · simp at he
    · split at he
      · simp at he
        subst he
        exact Or.inl rfl
      · split at he
        · simp at he
        · split at he <;>
            (simp at he; subst he; exact Or.inr ⟨_, rfl⟩)

theorem setDateRecurringOne_parse_fail {okU : String → Bool} {t : ProcTask} {spec : String}
    (hdr : jsTruthy t.date_recurring = false) (hrec : t.recurring = some spec)
    (hparse : setDateRecurringParse spec = none) :
    setDateRecurringOne okU t =
      (.rejected (some t.page_id) "InvalidRecurring",
        [.errorCard t.page_id "InvalidRecurring"]) := by
  unfold setDateRecurringOne
  rw [hdr, hrec]
  simp [hparse]

theorem setDateRecurringOne_dated (okU : String → Bool) {t : ProcTask}
    (h : jsTruthy t.date_recurring = true) :
    setDateRecurringOne okU t = (Settled.fulfilled, []) := by
  unfold setDateRecurringOne
  rw [h]
  rfl

end EnhancedRecurring

namespace EnhancedRecurring

/-! ### Concrete records used by counterexamples and witnesses -/

/-- A plain completed one-shot task record (no recurring spec, no
recurring date). -/
def doneRecA : RawTask := ⟨"p1", some "Task One", none, none, some "2024-03-01", []⟩

/-- A second plain completed task record. -/
def doneRecB : RawTask := ⟨"p2", some "Task Two", none, none, some "2024-03-02", []⟩

/-- A malformed completed record: the `Date Completed` property holds a
null `date` object, so `processTasks` throws reading `.start`. -/
def doneRecBad : RawTask := ⟨"p3", some "Broken", none, none, none, []⟩

/-- A completed record whose `Recurring` text uses a plural unit word,
exactly as the README instructs ("2 months"). -/
def doneRecPlural : RawTask := ⟨"pd2", some "Dishes", some "2 months", none, some "2024-03-01", []⟩

/-- A recurring-archived record that is due (its recurring date has
arrived). -/
def recArchDue : RawTask := ⟨"pr1", some "Plants", some "1 week", some "2024-04-01", some "2024-03-01", []⟩

/-- A recurring-archived record with no `Date Recurring` value. -/
def recArchNoDate : RawTask := ⟨"pr2", some "Stray", some "1 week", none, some "2024-03-01", []⟩

/-- Processed one-shot task (page id "pa"). -/
def taskPlainA : ProcTask := ⟨some "A", "pa", none, none, "2024-03-01", []⟩

/-- A second processed one-shot task (page id "pb2"). -/
def taskPlainB : ProcTask := ⟨some "B", "pb2", none, none, "2024-03-01", []⟩

/-- Processed recurring task with an unset recurring date. -/
def taskRec : ProcTask := ⟨some "R", "pb", some "1 week", none, "2024-03-01", []⟩

/-- Processed task whose recurring date is already set. -/
def taskDated : ProcTask := ⟨some "C", "pc", some "1 week", some "2024-04-01", "2024-03-01", []⟩

/-! ### Claims -/

/-- Claim C1 (code bug in the source): the interval parse of
`setDateRecurring` rejects every plural unit word, because `unitMapping`
has only the singular forms `week/day/month/year` as keys while the
regex captures the whole word: `"2 Months"` (the claim's example) and
the README's own examples `"2 months"` and `"3 days"` all fail with
`InvalidRecurringFormat`, while the singular `"1 week"` and `"2 Month"`
succeed with the plural unit value. -/
theorem C1_plural_unit_parse_fails :
    setDateRecurringParse "2 Months" = none
    ∧ setDateRecurringParse "2 months" = none
    ∧ setDateRecurringParse "3 days" = none
    ∧ setDateRecurringParse "1 week" = some (1, "weeks")
    ∧ setDateRecurringParse "2 Month" = some (2, "months") :=
  ⟨rfl, rfl, rfl, rfl, rfl⟩

/-- Claim C2 counterexample: one malformed record (null completed date)
makes the whole done-pass abort — `processTasks` throws, `errorHandler`
rethrows — so the perfectly fine sibling record `doneRecA`, which is
processed to completion when it is alone in the batch, is not processed
at all. -/
theorem C2_counterexample :
    processDoneTasks (fun _ => true) (fun _ => true) [doneRecA, doneRecBad] = none
    ∧ (processDoneTasks (fun _ => true) (fun _ => true) [doneRecA]).isSome = true :=
  ⟨rfl, rfl⟩

/-- Claim C2 as amended: within each remote-mutation stage
(`setDateRecurring`, `createRecurringTasks`, `archiveTasks`) the settled
outcome list, the remote-call trace and the aggregate counts of a batch
decompose over concatenation of the batch, so no task's outcome or
remote calls depend on its siblings; the batch-abort on a malformed
record happens earlier, in `processTasks`. -/
theorem C2_mutation_stage_isolation (okU okA okC : String → Bool) (recur : Bool)
    (excl : List (Option String)) (ts1 ts2 : List ProcTask) :
    ((setDateRecurring okU (ts1 ++ ts2)).1
        = (setDateRecurring okU ts1).1 ++ (setDateRecurring okU ts2).1
      ∧ (setDateRecurring okU (ts1 ++ ts2)).2
        = (setDateRecurring okU ts1).2 ++ (setDateRecurring okU ts2).2)
    ∧ ((createRecurringTasks okC (ts1 ++ ts2)).1
        = (createRecurringTasks okC ts1).1 ++ (createRecurringTasks okC ts2).1
      ∧ (createRecurringTasks okC (ts1 ++ ts2)).2
        = (createRecurringTasks okC ts1).2 ++ (createRecurringTasks okC ts2).2)
    ∧ ((archiveTasks okA (ts1 ++ ts2) recur excl).1.archivedTasks
        = (archiveTasks okA ts1 recur excl).1.archivedTasks
          + (archiveTasks okA ts2 recur excl).1.archivedTasks
      ∧ (archiveTasks okA (ts1 ++ ts2) recur excl).1.failedToArchive
        = (archiveTasks okA ts1 recur excl).1.failedToArchive
          + (archiveTasks okA ts2 recur excl).1.failedToArchive
      ∧ (archiveTasks okA (ts1 ++ ts2) recur excl).2
        = (archiveTasks okA ts1 recur excl).2 ++ (archiveTasks okA ts2 recur excl).2) := by
  refine ⟨⟨?_, ?_⟩, ⟨?_, ?_⟩, ?_, ?_, ?_⟩ <;>
    simp [setDateRecurring, createRecurringTasks, archiveTasks, List.filter_append,
      List.map_append, List.flatten_append, List.length_append]

/-- Claim C3 (code bug in the source): for a run whose done-tasks query
returns two records, the emitted summary reports `totalCompletedTasks = 1`,
not 2: index.mjs line 40 reads `processTasks.length` — the parameter
count of the `processTasks` function — instead of
`processedTasks.length`. -/
theorem C3_totalCompleted_is_function_arity :
    (mainRun (fun _ => true) (fun _ => true) (fun _ => true) (fun _ => true) 0
        [doneRecA, doneRecB] []).map Summary.totalCompletedTasks = some 1
    ∧ (mainRun (fun _ => true) (fun _ => true) (fun _ => true) (fun _ => true) 0
        [doneRecA, doneRecB] []).map Summary.totalCompletedTasks ≠ some 2 :=
  ⟨rfl, by decide⟩

end EnhancedRecurring

namespace EnhancedRecurring

/-- Claim C4 counterexample: `archiveTasks` does not return a per-task
outcome list.  Its return value is a pair of aggregate counts, and two
runs over the same two-task batch in which a *different* task fails
(first `taskPlainA`, then `taskPlainB`) return identical values — so no
downstream consumer of the return value can tell which task failed,
although the two runs demonstrably differ (only the first creates an
`ArchiveFailed` card for page "pa"). -/
theorem C4_counterexample :
    (archiveTasks (fun p => decide (p ≠ "pa")) [taskPlainA, taskPlainB] true []).1
      = (archiveTasks (fun p => decide (p ≠ "pb2")) [taskPlainA, taskPlainB] true []).1
    ∧ Ev.errorCard "pa" "ArchiveFailed"
        ∈ (archiveTasks (fun p => decide (p ≠ "pa")) [taskPlainA, taskPlainB] true []).2
    ∧ Ev.errorCard "pa" "ArchiveFailed"
        ∉ (archiveTasks (fun p => decide (p ≠ "pb2")) [taskPlainA, taskPlainB] true []).2 := by
  refine ⟨rfl, ?_, ?_⟩ <;> decide

/-- Claim C4 as amended: the recurrence-date stage and the recreation
stage do return per-task outcome lists — entry `i` is the settled
outcome of task `i`, a recreation failure always carries that task's
page id, and a recurrence-date rejection classified `InvalidRecurring`
carries that task's page id — but the archival stage returns only the
aggregate counts (see the counterexample). -/
theorem C4_per_task_outcome_lists (okU okC : String → Bool) (tasks : List ProcTask) :
    ((setDateRecurring okU tasks).1.length = tasks.length
      ∧ (createRecurringTasks okC tasks).1.length = tasks.length)
    ∧ ∀ (i : Nat) (t : ProcTask), tasks[i]? = some t →
        ((createRecurringTasks okC tasks).1[i]? =
            some (if okC t.page_id then Settled.fulfilled
                  else Settled.rejected (some t.page_id) "RecurCreationFail")
          ∧ ∀ p k, (setDateRecurring okU tasks).1[i]? = some (Settled.rejected p k) →
              k = "InvalidRecurring" → p = some t.page_id) := by
  refine ⟨⟨?_, ?_⟩, ?_⟩
  · simp [setDateRecurring]
  · simp [createRecurringTasks]
  · intro i t hit
    constructor
    · rw [createRecurringTasks_fst_eq, List.map_map, List.getElem?_map, hit]
      unfold createRecurringOne
      cases h : okC t.page_id <;> simp [h, Function.comp]
    · intro p k hik hk
      subst hk
      rw [setDateRecurring_fst_eq, List.map_map, List.getElem?_map, hit] at hik
      simp only [Option.map_some', Option.some.injEq, Function.comp] at hik
      unfold setDateRecurringOne at hik
      split at hik
      · simp at hik
      · split at hik
        · simp at hik
        · split at hik
          · simp at hik
            exact hik.symm
          · split at hik
            · simp at hik
            · split at hik <;> simp at hik

/-- Claim C4 witness: concrete instance of the per-task outcome theorem
with a failing recreation for the only task in the batch. -/
theorem C4_witness :
    (createRecurringTasks (fun _ => false) [taskPlainA]).1[0]? =
      some (if (fun _ => false) taskPlainA.page_id then Settled.fulfilled
            else Settled.rejected (some taskPlainA.page_id) "RecurCreationFail") :=
  ((C4_per_task_outcome_lists (fun _ => true) (fun _ => false) [taskPlainA]).2 0
    taskPlainA rfl).1

/-- Claim C5: a task whose `date_recurring` is already set (truthy) is
reported fulfilled by the recurrence-date stage while issuing no remote
call at all — no interval parse, no date computation, no page update —
and running the stage on it twice issues no remote call either, so in
particular no second update. -/
theorem C5_already_dated_is_noop (okU : String → Bool) (t : ProcTask)
    (h : jsTruthy t.date_recurring = true) :
    setDateRecurringOne okU t = (Settled.fulfilled, [])
    ∧ (setDateRecurring okU [t]).2 ++ (setDateRecurring okU [t]).2 = [] := by
  have h1 := setDateRecurringOne_dated okU h
  refine ⟨h1, ?_⟩
  simp [setDateRecurring, h1]

/-- Claim C5 witness: the already-dated `taskDated` is a fulfilled no-op
for both of two consecutive stage runs. -/
theorem C5_witness :
    setDateRecurringOne (fun _ => true) taskDated = (Settled.fulfilled, [])
    ∧ (setDateRecurring (fun _ => true) [taskDated]).2
        ++ (setDateRecurring (fun _ => true) [taskDated]).2 = [] :=
  C5_already_dated_is_noop (fun _ => true) taskDated (by decide)

/-- Claim C6: in the completed-tasks pass (`recur = true`), every
non-excluded task of the batch has exactly one archival status issued
for its page id, and (page ids being distinct) that status is
"Recurring Archive" when the task has a truthy recurring spec or a
truthy recurring date, and "Archive" when it has neither. -/
theorem C6_completed_pass_status (okA : String → Bool) (tasks : List ProcTask)
    (excl : List (Option String)) (t : ProcTask) (ht : t ∈ tasks)
    (hex : excl.contains (some t.page_id) = false)
    (hnd : (tasks.map ProcTask.page_id).Nodup) (s : String) :
    Ev.updateStatus t.page_id s ∈ (archiveTasks okA tasks true excl).2 ↔
      s = (if jsTruthy t.recurring || jsTruthy t.date_recurring
           then "Recurring Archive" else "Archive") := by
  constructor
  · intro hmem
    rcases archiveTasks_event_mem okA tasks true excl hmem with ⟨u, hu, _, heu⟩
    rcases archiveOne_events okA true u heu with h | h
    · have hpe : u.page_id = t.page_id := by
        injection h.symm with h1 h2
      have : u = t := List.inj_on_of_nodup_map hnd hu ht hpe
      subst this
      injection h.symm with h1 h2
      exact h2.symm
    · cases h
  · intro hs
    subst hs
    exact archiveTasks_event_of_mem okA tasks true excl t ht hex
      (archiveOne_update_mem okA true t)

/-- Claim C6 witness: the recurring task `taskRec` gets status
"Recurring Archive" in the completed-tasks pass. -/
theorem C6_witness :
    Ev.updateStatus "pb" "Recurring Archive"
      ∈ (archiveTasks (fun _ => true) [taskRec] true []).2 :=
  (C6_completed_pass_status (fun _ => true) [taskRec] [] taskRec (by decide) rfl
    (by decide) "Recurring Archive").mpr (by decide)

end EnhancedRecurring

namespace EnhancedRecurring

/-- The processed form of `doneRecPlural`. -/
def procPlural : ProcTask := ⟨some "Dishes", "pd2", some "2 months", none, "2024-03-01", []⟩

theorem createRecurringOne_fail {okC : String → Bool} {t : ProcTask}
    (hfail : okC t.page_id = false) :
    createRecurringOne okC t =
      (.rejected (some t.page_id) "RecurCreationFail",
        [.createPage t.page_id (newProperties t.properties),
         .errorCard t.page_id "RecurCreationFail"]) := by
  unfold createRecurringOne
  rw [hfail]
  rfl

theorem processed_nonempty_of_mem {q : List RawTask} {ps : List ProcTask} {t : ProcTask}
    (hproc : processTasks q = some ps) (ht : t ∈ ps) : q.isEmpty = false := by
  cases q with
  | nil =>
      exfalso
      have h0 : processTasks ([] : List RawTask) = some [] := rfl
      rw [h0] at hproc
      have hps : ps = [] := (Option.some.inj hproc).symm
      subst hps
      exact absurd ht (List.not_mem_nil t)
  | cons a l => rfl

/-- Claim C7: a completed task that enters the recurrence-date filter
(truthy recurring spec, no recurring date) and whose interval fails to
parse gets an `InvalidRecurring` error card, its page id lands in the
exclude list, and the completed-tasks pass issues no archival status
update at all for that page id — the task stays in the completed
bucket. -/
theorem C7_parse_failure_stays_completed (okU okA : String → Bool) (doneQ : List RawTask)
    (processed : List ProcTask) (t : ProcTask) (spec : String)
    (hproc : processTasks doneQ = some processed) (ht : t ∈ processed)
    (hdr : jsTruthy t.date_recurring = false) (hrec : t.recurring = some spec)
    (hspec : spec ≠ "") (hparse : setDateRecurringParse spec = none) :
    ∃ out, processDoneTasks okU okA doneQ = some out ∧
      Ev.errorCard t.page_id "InvalidRecurring" ∈ out.2 ∧
      ∀ s, Ev.updateStatus t.page_id s ∉ out.2 := by
  have hne : doneQ.isEmpty = false := processed_nonempty_of_mem hproc ht
  have htrts : t ∈ processed.filter
      (fun u => jsTruthy u.recurring || jsTruthy u.date_recurring) :=
    List.mem_filter.mpr ⟨ht, by rw [hrec]; simp [jsTruthy, hspec]⟩
  have hstep : processDoneTasks okU okA doneQ =
      some ({ totalCompletedTasks := processTasksArity,
              recurringTasksCompleted := (processed.filter
                (fun u => jsTruthy u.recurring || jsTruthy u.date_recurring)).length,
              archivedTasks := (archiveTasks okA processed true
                (excludeFailedResults (setDateRecurring okU (processed.filter
                  (fun u => jsTruthy u.recurring || jsTruthy u.date_recurring))).1)).1.archivedTasks,
              archiveFailures := (archiveTasks okA processed true
                (excludeFailedResults (setDateRecurring okU (processed.filter
                  (fun u => jsTruthy u.recurring || jsTruthy u.date_recurring))).1)).1.failedToArchive,
              recurringParseFailures := (excludeFailedResults (setDateRecurring okU
                (processed.filter
                  (fun u => jsTruthy u.recurring || jsTruthy u.date_recurring))).1).length },
            (setDateRecurring okU (processed.filter
              (fun u => jsTruthy u.recurring || jsTruthy u.date_recurring))).2
              ++ (archiveTasks okA processed true
                (excludeFailedResults (setDateRecurring okU (processed.filter
                  (fun u => jsTruthy u.recurring || jsTruthy u.date_recurring))).1)).2) := by
    unfold processDoneTasks
    rw [hne, hproc]
    rfl
  have hexmem : some t.page_id ∈ excludeFailedResults (setDateRecurring okU
      (processed.filter (fun u => jsTruthy u.recurring || jsTruthy u.date_recurring))).1 := by
    apply mem_excludeFailedResults _ _ "InvalidRecurring"
    rw [setDateRecurring_fst_eq]
    refine List.mem_map.mpr ⟨setDateRecurringOne okU t, List.mem_map.mpr ⟨t, htrts, rfl⟩, ?_⟩
    rw [setDateRecurringOne_parse_fail hdr hrec hparse]
  refine ⟨_, hstep, ?_, ?_⟩
  · apply List.mem_append_left
    rw [setDateRecurring_snd_eq]
    apply mem_flatten_of_stage _ _ t htrts
    rw [setDateRecurringOne_parse_fail hdr hrec hparse]
    simp
  · intro s hmem
    rcases List.mem_append.mp hmem with h1 | h2
    · rw [setDateRecurring_snd_eq] at h1
      rcases stage_of_mem_flatten _ _ h1 with ⟨u, _, heu⟩
      rcases setDateRecurringOne_events okU u heu with h | ⟨d, h⟩
      · exact Ev.noConfusion h
      · exact Ev.noConfusion h
    · rcases archiveTasks_event_mem okA processed true _ h2 with ⟨u, _, hexu, heu⟩
      rcases archiveOne_events okA true u heu with h | h
      · injection h with h1 h2
        rw [← h1] at hexu
        have hct : (excludeFailedResults (setDateRecurring okU (processed.filter
            (fun u => jsTruthy u.recurring || jsTruthy u.date_recurring))).1).contains
              (some t.page_id) = true :=
          List.elem_eq_true_of_mem hexmem
        rw [hct] at hexu
        cases hexu
      · exact Ev.noConfusion h

/-- Claim C7 witness: concrete run over the single README-style record
`doneRecPlural` ("2 months"), whose parse fails. -/
theorem C7_witness :
    ∃ out, processDoneTasks (fun _ => true) (fun _ => true) [doneRecPlural] = some out ∧
      Ev.errorCard "pd2" "InvalidRecurring" ∈ out.2 ∧
      ∀ s, Ev.updateStatus "pd2" s ∉ out.2 :=
  C7_parse_failure_stays_completed (fun _ => true) (fun _ => true) [doneRecPlural]
    [procPlural] procPlural "2 months" rfl (by decide) rfl rfl (by decide) rfl

end EnhancedRecurring

namespace EnhancedRecurring

/-- Abbreviation for the non-trivial branch of `handleRecurringTasks`
(statistics and remote calls of the recurrences pass over the due
tasks). -/
def recurPassBody (okC okA : String → Bool) (ttr : List ProcTask) : RecurStats × List Ev :=
  ({ recurredTasks := ttr.length,
     recurCreationFailures := (excludeFailedResults (createRecurringTasks okC ttr).1).length,
     archivedTasks := (archiveTasks okA ttr false
        (excludeFailedResults (createRecurringTasks okC ttr).1)).1.archivedTasks,
     archiveFailures := (archiveTasks okA ttr false
        (excludeFailedResults (createRecurringTasks okC ttr).1)).1.failedToArchive },
   (createRecurringTasks okC ttr).2
     ++ (archiveTasks okA ttr false (excludeFailedResults (createRecurringTasks okC ttr).1)).2)

theorem handleRecurringTasks_eq (okC okA : String → Bool) (now : Nat) (q : List RawTask)
    (ps : List ProcTask) (hne : q.isEmpty = false) (hproc : processTasks q = some ps) :
    handleRecurringTasks okC okA now q =
      if (ps.filter (fun u => dueCheck now u.date_recurring)).isEmpty then
        some (⟨0, 0, 0, 0⟩, [])
      else
        some (recurPassBody okC okA (ps.filter (fun u => dueCheck now u.date_recurring))) := by
  unfold handleRecurringTasks
  rw [hne, hproc]
  rfl

/-- Claim C8: a due recurring-archived task whose clone creation fails
gets a `RecurCreationFail` error card, its page id lands in the exclude
list of the follow-up archival, and the recurrences pass issues no
status update at all for that page id — the original stays in Recurring
Archive. -/
theorem C8_clone_failure_keeps_original (okC okA : String → Bool) (now : Nat)
    (recurQ : List RawTask) (processed : List ProcTask) (t : ProcTask)
    (hproc : processTasks recurQ = some processed) (ht : t ∈ processed)
    (hdue : dueCheck now t.date_recurring = true) (hfail : okC t.page_id = false) :
    ∃ out, handleRecurringTasks okC okA now recurQ = some out ∧
      Ev.errorCard t.page_id "RecurCreationFail" ∈ out.2 ∧
      ∀ s, Ev.updateStatus t.page_id s ∉ out.2 := by
  have hne : recurQ.isEmpty = false := processed_nonempty_of_mem hproc ht
  have htr : t ∈ processed.filter (fun u => dueCheck now u.date_recurring) :=
    List.mem_filter.mpr ⟨ht, hdue⟩
  have hE : (processed.filter (fun u => dueCheck now u.date_recurring)).isEmpty = false := by
    simpa [List.isEmpty_iff] using List.ne_nil_of_mem htr
  rw [handleRecurringTasks_eq okC okA now recurQ processed hne hproc, if_neg (by simp [hE])]
  have hexmem : some t.page_id ∈ excludeFailedResults (createRecurringTasks okC
      (processed.filter (fun u => dueCheck now u.date_recurring))).1 := by
    apply mem_excludeFailedResults _ _ "RecurCreationFail"
    rw [createRecurringTasks_fst_eq]
    refine List.mem_map.mpr ⟨createRecurringOne okC t, List.mem_map.mpr ⟨t, htr, rfl⟩, ?_⟩
    rw [createRecurringOne_fail hfail]
  refine ⟨_, rfl, ?_, ?_⟩
  · simp only [recurPassBody]
    apply List.mem_append_left
    rw [createRecurringTasks_snd_eq]
    apply mem_flatten_of_stage _ _ t htr
    rw [createRecurringOne_fail hfail]
    simp
  · intro s hmem
    simp only [recurPassBody] at hmem
    rcases List.mem_append.mp hmem with h1 | h2
    · rw [createRecurringTasks_snd_eq] at h1
      rcases stage_of_mem_flatten _ _ h1 with ⟨u, _, heu⟩
      rcases createRecurringOne_events okC u heu with h | h
      · exact Ev.noConfusion h
      · exact Ev.noConfusion h
    · rcases archiveTasks_event_mem okA _ false _ h2 with ⟨u, _, hexu, heu⟩
      rcases archiveOne_events okA false u heu with h | h
      · injection h with h1 h2
        rw [← h1] at hexu
        have hct : (excludeFailedResults (createRecurringTasks okC
            (processed.filter (fun u => dueCheck now u.date_recurring))).1).contains
              (some t.page_id) = true :=
          List.elem_eq_true_of_mem hexmem
        rw [hct] at hexu
        cases hexu
      · exact Ev.noConfusion h

/-- The processed form of `recArchDue`. -/
def procDue : ProcTask := ⟨some "Plants", "pr1", some "1 week", some "2024-04-01", "2024-03-01", []⟩

/-- The processed form of `recArchNoDate`. -/
def procNoDate : ProcTask := ⟨some "Stray", "pr2", some "1 week", none, "2024-03-01", []⟩

/-- Claim C8 witness: concrete recurrences pass on the due task
`recArchDue` with a failing clone creation. -/
theorem C8_witness :
    ∃ out, handleRecurringTasks (fun _ => false) (fun _ => true)
        (toDayNumber ⟨2024, 4, 1⟩) [recArchDue] = some out ∧
      Ev.errorCard "pr1" "RecurCreationFail" ∈ out.2 ∧
      ∀ s, Ev.updateStatus "pr1" s ∉ out.2 :=
  C8_clone_failure_keeps_original (fun _ => false) (fun _ => true) (toDayNumber ⟨2024, 4, 1⟩)
    [recArchDue] [procDue] procDue rfl (by decide) (by decide) rfl

/-- Claim C9: `createErrorCard` deduplicates by message — calling it
twice with the identical `(taskId, taskName, errorType)` triple, on a
store that does not yet hold the computed message, appends exactly one
card: the second call finds the page by its `Name` and skips
creation. -/
theorem C9_recordFailure_dedup (store : List String) (taskId : String)
    (taskName : Option String) (errorType : String) (nm : String)
    (hnm : errorCardName taskId taskName errorType = some nm)
    (h0 : store.contains nm = false) :
    createErrorCard taskId taskName errorType
        (createErrorCard taskId taskName errorType store) = store ++ [nm]
    ∧ (createErrorCard taskId taskName errorType
        (createErrorCard taskId taskName errorType store)).count nm = 1 := by
  have h1 : createErrorCard taskId taskName errorType store = store ++ [nm] := by
    unfold createErrorCard
    rw [hnm]
    exact if_neg (fun hc => by rw [hc] at h0; cases h0)
  have hcont : (store ++ [nm]).contains nm = true :=
    List.elem_eq_true_of_mem (List.mem_append_right _ (List.mem_singleton.mpr rfl))
  have h2 : createErrorCard taskId taskName errorType (store ++ [nm]) = store ++ [nm] := by
    unfold createErrorCard
    rw [hnm]
    exact if_pos hcont
  have hnotmem : nm ∉ store := by
    intro hm
    have hmt : store.contains nm = true := List.elem_eq_true_of_mem hm
    rw [hmt] at h0
    cases h0
  refine ⟨by rw [h1, h2], ?_⟩
  rw [h1, h2]
  simp [List.count_append, List.count_eq_zero.mpr hnotmem]

/-- Claim C9 witness: two identical `InvalidRecurring` calls on an empty
store leave exactly one card. -/
theorem C9_witness :
    createErrorCard "pz" (some "Z") "InvalidRecurring"
        (createErrorCard "pz" (some "Z") "InvalidRecurring" [])
      = [] ++ ["Recurring format is invalid for task pz with name Z."]
    ∧ (createErrorCard "pz" (some "Z") "InvalidRecurring"
        (createErrorCard "pz" (some "Z") "InvalidRecurring" [])).count
          "Recurring format is invalid for task pz with name Z." = 1 :=
  C9_recordFailure_dedup [] "pz" (some "Z") "InvalidRecurring"
    "Recurring format is invalid for task pz with name Z." rfl rfl

/-- Claim C10: a recurring-archived task with no `Date Recurring` value
fails the due-date comparison (`new Date(…)` of "undefinedT00:00" is an
Invalid Date and any comparison with it is false), so the recurrences
pass — provided page ids are distinct — issues no remote call about its
page at all: no clone, no status change, no error card. -/
theorem C10_missing_date_left_alone (okC okA : String → Bool) (now : Nat)
    (recurQ : List RawTask) (processed : List ProcTask) (t : ProcTask)
    (hproc : processTasks recurQ = some processed) (ht : t ∈ processed)
    (hnone : t.date_recurring = none)
    (hnd : (processed.map ProcTask.page_id).Nodup) :
    ∃ out, handleRecurringTasks okC okA now recurQ = some out ∧
      ∀ e ∈ out.2, evPage e ≠ t.page_id := by
  have hne : recurQ.isEmpty = false := processed_nonempty_of_mem hproc ht
  have hdf : dueCheck now t.date_recurring = false := by rw [hnone]; rfl
  rw [handleRecurringTasks_eq okC okA now recurQ processed hne hproc]
  cases hE : (processed.filter (fun u => dueCheck now u.date_recurring)).isEmpty with
  | true =>
      refine ⟨_, rfl, ?_⟩
      intro e he
      exact absurd he (List.not_mem_nil e)
  | false =>
      refine ⟨_, rfl, ?_⟩
      intro e he hpage
      simp only [recurPassBody] at he
      have hu : ∃ u, u ∈ processed.filter (fun v => dueCheck now v.date_recurring)
          ∧ evPage e = u.page_id := by
        rcases List.mem_append.mp he with h1 | h2
        · rw [createRecurringTasks_snd_eq] at h1
          rcases stage_of_mem_flatten _ _ h1 with ⟨u, hu, heu⟩
          exact ⟨u, hu, createRecurringOne_evPage okC u heu⟩
        · rcases archiveTasks_event_mem okA _ false _ h2 with ⟨u, hu, _, heu⟩
          exact ⟨u, hu, archiveOne_evPage okA false u heu⟩
      rcases hu with ⟨u, humem, hupage⟩
      rcases List.mem_filter.mp humem with ⟨hup, hdu⟩
      rw [hupage] at hpage
      have hut : u = t := List.inj_on_of_nodup_map hnd hup ht hpage
      subst hut
      rw [hdf] at hdu
      cases hdu

/-- Claim C10 witness: a two-task batch where "pr2" has no recurring
date and "pr1" is due — every remote call of the pass is about "pr1". -/
theorem C10_witness :
    ∃ out, handleRecurringTasks (fun _ => true) (fun _ => true)
        (toDayNumber ⟨2024, 4, 1⟩) [recArchNoDate, recArchDue] = some out ∧
      ∀ e ∈ out.2, evPage e ≠ "pr2" :=
  C10_missing_date_left_alone (fun _ => true) (fun _ => true) (toDayNumber ⟨2024, 4, 1⟩)
    [recArchNoDate, recArchDue] [procNoDate, procDue] procNoDate rfl (by decide) rfl
    (by decide)

end EnhancedRecurring
